import Mathlib

/-!
Shallow embedding of the BTF 2023 sumo-robot firmware.

The embedding follows src/unnamed/part_000, the final variant of the
firmware (src/sumo.ino holds two earlier near-duplicate drafts of the same
core).  Modelling conventions:

* C floats are modelled as rationals; the arithmetic the claims are about
  is exact on the inputs considered.
* millis() timestamps and unsigned long arithmetic are modelled as Nat
  with subtraction computed modulo 2^32, exactly as 32-bit unsigned
  arithmetic behaves on the ESP32.
* Each tick is modelled as a pure function from the mutable globals
  (currentAction, nextAction, lastActionStart, stickReconnectTimer), the
  controller snapshot and the current time to the new globals plus the
  list of motor commands emitted through setSpeed, in emission order.
-/

namespace Sumo

/-- Modulus of unsigned long arithmetic: unsigned long is 32 bits on the ESP32. -/
def UL_MOD : Nat := 4294967296

/-! Tuning constants, src/unnamed/part_000 lines 47-57. -/

def STICK_ZERO : ℚ := 10
def STICK_FINE : ℚ := 100
def STICK_MAX : ℚ := 128
def SPEED_MIN : ℚ := 20
def SPEED_MID : ℚ := 70
def SPEED_MAX : ℚ := 100
def ROT_MIN : ℚ := 20
def ROT_MID : ℚ := 60
def ROT_MAX : ℚ := 80
def ROT_LEAD : ℚ := 1
def ROT_TRAIL : ℚ := 1
def DASH_DURATION : Nat := 300
def SPIN_DURATION : Nat := 300
def SPIN_ACTIVE : Nat := 100
def DASH_SPEED : ℚ := 1
def SPIN_SPEED : ℚ := 1
def ACTION_DEBOUNCE : Nat := 200
def STICK_RECONNECT_DELAY : Nat := 3000

/-- EPSILON (part_000 line 75), the zero-division guard threshold of fmap. -/
def EPSILON : ℚ := 1 / 1000

/-- Action enum (part_000 line 53): Neutral, DashF, DashB, SpinR, SpinL. -/
inductive Action
  | Neutral
  | DashF
  | DashB
  | SpinR
  | SpinL
  deriving DecidableEq, Repr

/-- Controller snapshot (struct Controller, part_000 lines 35-42). -/
structure Controller where
  rx : ℤ
  ly : ℤ
  x : Bool
  sq : Bool
  r1 : Bool
  l1 : Bool
  deriving DecidableEq, Repr

/-- One motor command as handed to the output stage by setSpeed: direction
pin levels, duty-cycle values written by analogWrite, and the clamped
normalized wheel values the function worked from. -/
structure MotorCmd where
  rFwd : Bool
  rBwd : Bool
  lFwd : Bool
  lBwd : Bool
  rDuty : ℤ
  lDuty : ℤ
  lVal : ℚ
  rVal : ℚ
  deriving DecidableEq, Repr

/-- setSpeed (part_000 lines 115-141): clamp each wheel to [-1, 1], set the
direction pins from the sign, flip the sign of a negative value, and write
the duty cycle (int)(magnitude * 255); the C cast truncates, which on the
nonnegative magnitude is the floor. -/
def setSpeed (l r : ℚ) : MotorCmd :=
  let r2 := if r < -1 then -1 else if r > 1 then 1 else r
  let l2 := if l < -1 then -1 else if l > 1 then 1 else l
  { rFwd := !decide (r2 < 0), rBwd := decide (r2 < 0),
    lFwd := !decide (l2 < 0), lBwd := decide (l2 < 0),
    rDuty := Int.floor ((if r2 < 0 then -r2 else r2) * 255),
    lDuty := Int.floor ((if l2 < 0 then -l2 else l2) * 255),
    lVal := l2, rVal := r2 }

/-- Elapsed-time computation millis() - t on 32-bit unsigned longs:
(now - t) reduced modulo 2^32, for timestamps below 2^32. -/
def elapsedMs (now t : Nat) : Nat := (now + UL_MOD - t) % UL_MOD

/-- checkDebounce (part_000 lines 86-88): true once more than deb
milliseconds have elapsed since lastActionStart.  The C default argument
ACTION_DEBOUNCE is passed explicitly at each call site here. -/
def checkDebounce (now lastActionStart deb : Nat) : Bool :=
  decide (elapsedMs now lastActionStart > deb)

/-- getCooldown (part_000 lines 251-255). -/
def getCooldown (act : Action) : Nat :=
  if act = Action.DashF ∨ act = Action.DashB then DASH_DURATION
  else if act ≠ Action.Neutral then SPIN_DURATION
  else 0

/-- checkCooldown (part_000 lines 258-260). -/
def checkCooldown (act : Action) (now lastActionStart : Nat) : Bool :=
  checkDebounce now lastActionStart (getCooldown act)

/-- fmap (part_000 lines 78-83): linear interpolation with a degenerate
range guard.  Note the guard returns in_max, the upper input bound. -/
def fmap (x in_min in_max out_min out_max : ℚ) : ℚ :=
  if |in_max - in_min| < EPSILON then in_max
  else (x - in_min) * (out_max - out_min) / (in_max - in_min) + out_min

/-- mapSpeedStick (part_000 lines 172-178). -/
def mapSpeedStick (val : ℤ) : ℚ :=
  let sign : ℚ := if val < 0 then -1 else 1
  let v : ℚ := (val.natAbs : ℚ)
  if v ≤ STICK_ZERO then 0
  else if v ≤ STICK_FINE then sign * fmap v STICK_ZERO STICK_FINE SPEED_MIN SPEED_MID
  else sign * fmap v STICK_FINE STICK_MAX SPEED_MID SPEED_MAX

/-- mapRotStick (part_000 lines 180-186). -/
def mapRotStick (val : ℤ) : ℚ :=
  let sign : ℚ := if val < 0 then -1 else 1
  let v : ℚ := (val.natAbs : ℚ)
  if v ≤ STICK_ZERO then 0
  else if v ≤ STICK_FINE then sign * fmap v STICK_ZERO STICK_FINE ROT_MIN ROT_MID
  else sign * fmap v STICK_FINE STICK_MAX ROT_MID ROT_MAX

/-- Joint clamp stage of move (part_000 lines 212-215): when either
wheel magnitude exceeds 1, divide both by the larger magnitude. -/
def mixClamp (l r : ℚ) : ℚ × ℚ :=
  if max |l| |r| > 1 then (l / max |l| |r|, r / max |l| |r|) else (l, r)

/-- move (part_000 lines 190-217): shape both sticks, normalize by
STICK_MAX, split the rotation with lead/trail weighting, superpose,
jointly clamp and hand the pair to setSpeed. -/
def move (speedStick rotStick : ℤ) : MotorCmd :=
  let speed := mapSpeedStick speedStick / STICK_MAX
  let rot := mapRotStick rotStick / STICK_MAX
  let rp : ℚ × ℚ :=
    if -rot > 0 then ((-rot) * ROT_LEAD, rot * ROT_TRAIL)
    else ((-rot) * ROT_TRAIL, rot * ROT_LEAD)
  let c := mixClamp (speed + rp.2) (speed + rp.1)
  setSpeed c.1 c.2

/-- dashF (part_000 lines 221-224). -/
def dashF : MotorCmd := setSpeed DASH_SPEED DASH_SPEED

/-- dashB (part_000 lines 226-229). -/
def dashB : MotorCmd := setSpeed (-DASH_SPEED) (-DASH_SPEED)

/-- spinR (part_000 lines 231-236): energized while the SPIN_ACTIVE
debounce has not yet passed, zero afterwards. -/
def spinR (now lastActionStart : Nat) : MotorCmd :=
  if !(checkDebounce now lastActionStart SPIN_ACTIVE) then
    setSpeed (SPIN_SPEED * ROT_LEAD) ((-SPIN_SPEED) * ROT_TRAIL)
  else setSpeed 0 0

/-- spinL (part_000 lines 238-242). -/
def spinL (now lastActionStart : Nat) : MotorCmd :=
  if !(checkDebounce now lastActionStart SPIN_ACTIVE) then
    setSpeed ((-SPIN_SPEED) * ROT_TRAIL) (SPIN_SPEED * ROT_LEAD)
  else setSpeed 0 0

/-- reset (part_000 lines 244-247). -/
def reset : MotorCmd := setSpeed 0 0

/-- The scheduler globals: currentAction, nextAction, lastActionStart
(part_000 lines 58-59). -/
structure SchedState where
  current : Action
  next : Action
  lastActionStart : Nat
  deriving DecidableEq, Repr

/-- processActionQueue (part_000 lines 266-294), state-transition part:
returns the new scheduler globals and the commands it emits (reset, when a
finished spin is retired).  Its C return value is queueStatus of the new
state, see below. -/
def processActionQueue (s : SchedState) (now : Nat) : SchedState × List MotorCmd :=
  if s.current ≠ Action.Neutral then
    if checkCooldown s.current now s.lastActionStart then
      (⟨s.next, Action.Neutral,
        if s.next ≠ Action.Neutral then now else s.lastActionStart⟩,
       if s.current = Action.SpinR ∨ s.current = Action.SpinL then [reset] else [])
    else (s, [])
  else if s.next ≠ Action.Neutral then (⟨s.next, Action.Neutral, now⟩, [])
  else (s, [])

/-- Return value of processActionQueue (part_000 line 293):
the sum of the two zero-tests !!currentAction + !!nextAction, computed on
the state after the transition. -/
def queueStatus (s : SchedState) : Nat :=
  (if s.current = Action.Neutral then 0 else 1)
    + (if s.next = Action.Neutral then 0 else 1)

/-- executeAction (part_000 lines 296-302). -/
def executeAction (s : SchedState) (now : Nat) : List MotorCmd :=
  match s.current with
  | Action.DashF => [dashF]
  | Action.DashB => [dashB]
  | Action.SpinR => [spinR now s.lastActionStart]
  | Action.SpinL => [spinL now s.lastActionStart]
  | Action.Neutral => []

/-- processController (part_000 lines 304-353): queue the highest-priority
requested action when the queue is not full and the request passes the
same-action debounce, then run analog mixing when no action is active.
Returns the new scheduler globals and the emitted commands. -/
def processController (s : SchedState) (stick : Controller)
    (actionQueueStatus : Nat) (now : Nat) : SchedState × List MotorCmd :=
  let s1 :=
    if actionQueueStatus ≠ 2 then
      if stick.x then
        if s.current ≠ Action.DashF
            ∨ checkDebounce now s.lastActionStart ACTION_DEBOUNCE then
          { s with next := Action.DashF }
        else s
      else if stick.sq then
        if s.current ≠ Action.DashB
            ∨ checkDebounce now s.lastActionStart ACTION_DEBOUNCE then
          { s with next := Action.DashB }
        else s
      else if stick.r1 then
        if s.current ≠ Action.SpinR
            ∨ checkDebounce now s.lastActionStart ACTION_DEBOUNCE then
          { s with next := Action.SpinR }
        else s
      else if stick.l1 then
        if s.current ≠ Action.SpinL
            ∨ checkDebounce now s.lastActionStart ACTION_DEBOUNCE then
          { s with next := Action.SpinL }
        else s
      else s
    else s
  (s1, if actionQueueStatus = 0 then [move stick.ly stick.rx] else [])

/-- The request selected by processController's if-else chain: the
highest-priority asserted button in the order x (DashF) over sq (DashB)
over r1 (SpinR) over l1 (SpinL). -/
def priorityReq (stick : Controller) : Option Action :=
  if stick.x then some Action.DashF
  else if stick.sq then some Action.DashB
  else if stick.r1 then some Action.SpinR
  else if stick.l1 then some Action.SpinL
  else none

/-- Whole mutable state of the firmware: scheduler globals plus the
reconnect rate-limit timer (part_000 line 32). -/
structure SysState where
  sched : SchedState
  stickReconnectTimer : Nat
  deriving DecidableEq, Repr

/-- Result of one loop iteration: new globals, emitted motor commands in
order, and whether a reconnect attempt (removePairedDevices, PS4.end,
PS4.begin) was triggered. -/
structure TickResult where
  state : SysState
  cmds : List MotorCmd
  reconnectAttempt : Bool
  deriving DecidableEq, Repr

/-- loop (part_000 lines 374-395): when connected, run the scheduler, the
executor and the controller processing; when disconnected, emit an
immediate stop and attempt a reconnect at most once per
STICK_RECONNECT_DELAY window. -/
def loopTick (s : SysState) (connected : Bool) (stick : Controller)
    (now : Nat) : TickResult :=
  if connected then
    let pq := processActionQueue s.sched now
    let r := queueStatus pq.1
    let pc := processController pq.1 stick r now
    ⟨⟨pc.1, s.stickReconnectTimer⟩, pq.2 ++ executeAction pq.1 now ++ pc.2, false⟩
  else
    if elapsedMs now s.stickReconnectTimer > STICK_RECONNECT_DELAY then
      ⟨⟨s.sched, now⟩, [reset], true⟩
    else
      ⟨⟨s.sched, s.stickReconnectTimer⟩, [reset], false⟩

/-- Transcription of claim C6 in the spec's own words, for the speed
calibration: the shaped value is the sign of the raw input times a
piecewise magnitude that is exactly 0 in the dead zone, the linear
interpolation of the magnitude from [zone, fine] to [outMin, outMid] when
zone < magnitude and magnitude is at most fine, and the linear
interpolation from [fine, max] to [outMid, outMax] otherwise. -/
def shapeSpecSpeed (val : ℤ) : ℚ :=
  let sign : ℚ := if val < 0 then -1 else 1
  let v : ℚ := (val.natAbs : ℚ)
  sign *
    (if v ≤ STICK_ZERO then 0
     else if v ≤ STICK_FINE then
       (v - STICK_ZERO) * (SPEED_MID - SPEED_MIN) / (STICK_FINE - STICK_ZERO)
         + SPEED_MIN
     else
       (v - STICK_FINE) * (SPEED_MAX - SPEED_MID) / (STICK_MAX - STICK_FINE)
         + SPEED_MID)

/-! Helper lemmas. -/

/-- When timestamps do not wrap, the unsigned elapsed-time computation is
plain subtraction. -/
theorem elapsedMs_eq (now t : Nat) (h1 : t ≤ now) (h2 : now < UL_MOD) :
    elapsedMs now t = now - t := by
  unfold elapsedMs UL_MOD at *
  omega

/-- checkDebounce, on non-wrapping timestamps, tests deb < now - t. -/
theorem checkDebounce_eq (now t deb : Nat) (h1 : t ≤ now) (h2 : now < UL_MOD) :
    checkDebounce now t deb = decide (deb < now - t) := by
  unfold checkDebounce
  rw [elapsedMs_eq now t h1 h2]

/-- The clamp-to-[-1,1] if-chain of setSpeed computes max (-1) (min 1 x). -/
theorem clampIf_eq (x : ℚ) :
    (if x < -1 then (-1 : ℚ) else if x > 1 then 1 else x) = max (-1) (min 1 x) := by
  split_ifs with h1 h2
  · rw [min_eq_right (by linarith), max_eq_left (by linarith)]
  · rw [min_eq_left (by linarith), max_eq_right (by norm_num)]
  · rw [min_eq_right (by linarith), max_eq_right (by linarith)]

/-- A duty cycle floor of a magnitude in [0, 1] times 255 lies in 0..255. -/
theorem floorDuty_bounds (m : ℚ) (h0 : 0 ≤ m) (h1 : m ≤ 1) :
    0 ≤ Int.floor (m * 255) ∧ Int.floor (m * 255) ≤ 255 := by
  constructor
  · exact Int.le_floor.mpr (by push_cast; nlinarith)
  · have h : Int.floor (m * 255) < 256 := Int.floor_lt.mpr (by push_cast; nlinarith)
    omega

/-! Claim C3: degenerate-range behaviour of fmap. -/

/-- C3 counterexample: with the degenerate range [2, 2] (width 0, below the
epsilon) and output bounds [0, 9], fmap returns 2 (the upper input bound),
not the upper output bound 9 as the claim states. -/
theorem claim_C3_counterexample : |(2 : ℚ) - 2| < EPSILON ∧ fmap 5 2 2 0 9 ≠ 9 := by
  constructor
  · norm_num [EPSILON]
  · norm_num [fmap, EPSILON]

/-- C3 (amended): for every input and every interpolation range of width
below the epsilon 1e-3, fmap returns the upper input bound in_max instead
of dividing by zero. -/
theorem claim_C3 (x in_min in_max out_min out_max : ℚ)
    (h : |in_max - in_min| < EPSILON) :
    fmap x in_min in_max out_min out_max = in_max := by
  unfold fmap
  rw [if_pos h]

/-- C3 witness: the amended theorem evaluated on the degenerate range [2, 2]. -/
theorem claim_C3_witness : |(2 : ℚ) - 2| < EPSILON ∧ fmap 5 2 2 0 9 = 2 :=
  ⟨by norm_num [EPSILON], claim_C3 5 2 2 0 9 (by norm_num [EPSILON])⟩

/-! Claim C5: output-stage clamping. -/

/-- C5: for every pair of wheel commands, including out-of-range ones, the
values setSpeed hands on are the inputs hard-clamped into [-1, 1] (never
rejected), and the per-wheel duty-cycle values lie in 0..255. -/
theorem claim_C5 (l r : ℚ) :
    (setSpeed l r).lVal = max (-1) (min 1 l) ∧
    (setSpeed l r).rVal = max (-1) (min 1 r) ∧
    -1 ≤ (setSpeed l r).lVal ∧ (setSpeed l r).lVal ≤ 1 ∧
    -1 ≤ (setSpeed l r).rVal ∧ (setSpeed l r).rVal ≤ 1 ∧
    0 ≤ (setSpeed l r).lDuty ∧ (setSpeed l r).lDuty ≤ 255 ∧
    0 ≤ (setSpeed l r).rDuty ∧ (setSpeed l r).rDuty ≤ 255 := by
  unfold setSpeed
  dsimp only
  rw [clampIf_eq l, clampIf_eq r]
  have hlb : (-1 : ℚ) ≤ max (-1) (min 1 l) := le_max_left _ _
  have hlu : max (-1) (min 1 l) ≤ 1 := max_le (by norm_num) (min_le_left _ _)
  have hrb : (-1 : ℚ) ≤ max (-1) (min 1 r) := le_max_left _ _
  have hru : max (-1) (min 1 r) ≤ 1 := max_le (by norm_num) (min_le_left _ _)
  have hldu := floorDuty_bounds (if max (-1) (min 1 l) < 0
      then -(max (-1) (min 1 l)) else max (-1) (min 1 l))
    (by split_ifs with h <;> linarith) (by split_ifs with h <;> linarith)
  have hrdu := floorDuty_bounds (if max (-1) (min 1 r) < 0
      then -(max (-1) (min 1 r)) else max (-1) (min 1 r))
    (by split_ifs with h <;> linarith) (by split_ifs with h <;> linarith)
  exact ⟨rfl, rfl, hlb, hlu, hrb, hru, hldu.1, hldu.2, hrdu.1, hrdu.2⟩

/-! Claim C7: ratio-preserving joint clamp of the mixer. -/

/-- C7: whenever the pre-clamp wheel pair has max (abs l) (abs r) above 1,
the mixer's joint clamp divides both wheels by that same maximum, bringing
the larger magnitude to at most 1 while preserving the left/right ratio. -/
theorem claim_C7 (l r : ℚ) (h : 1 < max |l| |r|) :
    (mixClamp l r).1 = l / max |l| |r| ∧
    (mixClamp l r).2 = r / max |l| |r| ∧
    max |(mixClamp l r).1| |(mixClamp l r).2| ≤ 1 ∧
    (mixClamp l r).1 * r = (mixClamp l r).2 * l ∧
    (r ≠ 0 → (mixClamp l r).1 / (mixClamp l r).2 = l / r) := by
  have hm0 : (0 : ℚ) < max |l| |r| := lt_trans one_pos h
  have hmc : mixClamp l r = (l / max |l| |r|, r / max |l| |r|) := by
    unfold mixClamp
    rw [if_pos h]
  rw [hmc]
  dsimp only
  refine ⟨rfl, rfl, ?_, by ring, ?_⟩
  · apply max_le
    · rw [abs_div, abs_of_pos hm0]
      exact div_le_one_of_le₀ (le_max_left _ _) (le_of_lt hm0)
    · rw [abs_div, abs_of_pos hm0]
      exact div_le_one_of_le₀ (le_max_right _ _) (le_of_lt hm0)
  · intro hr
    have hm : max |l| |r| ≠ 0 := ne_of_gt hm0
    field_simp

/-- C7 witness: the clamp at the claim's own example pair (1.4, 0.2). -/
theorem claim_C7_witness :
    1 < max |(7 / 5 : ℚ)| |(1 / 5 : ℚ)| ∧
    max |(mixClamp (7 / 5) (1 / 5)).1| |(mixClamp (7 / 5) (1 / 5)).2| ≤ 1 :=
  have h : 1 < max |(7 / 5 : ℚ)| |(1 / 5 : ℚ)| := by
    rw [abs_of_pos (by norm_num), abs_of_pos (by norm_num)]
    norm_num
  ⟨h, (claim_C7 (7 / 5) (1 / 5) h).2.2.1⟩

/-! Claim C6: the response curve equals the spec's piecewise description. -/

/-- C6: for every raw signed stick value, the speed response curve is the
sign of the input times the piecewise magnitude map of the claim: 0 inside
the dead zone, linear interpolation [zone, fine] to [outMin, outMid] in
the fine band, linear interpolation [fine, max] to [outMid, outMax]
otherwise. -/
theorem claim_C6 (val : ℤ) : mapSpeedStick val = shapeSpecSpeed val := by
  simp only [mapSpeedStick, shapeSpecSpeed, fmap, STICK_ZERO, STICK_FINE, STICK_MAX,
    SPEED_MIN, SPEED_MID, SPEED_MAX, EPSILON]
  norm_num

/-! Scheduler helper lemmas. -/

/-- After processActionQueue returns, an idle scheduler never has a queued
action: the promotion branch always fires in the same call. -/
theorem processActionQueue_idle_inv (s : SchedState) (now : Nat) :
    (processActionQueue s now).1.current = Action.Neutral →
    (processActionQueue s now).1.next = Action.Neutral := by
  unfold processActionQueue
  split_ifs <;> simp_all

/-- With a full queue status, processController leaves the scheduler
globals untouched. -/
theorem processController_full (s : SchedState) (stick : Controller) (now : Nat) :
    (processController s stick 2 now).1 = s := by
  unfold processController
  simp

/-- The scheduler part of processController is a function of the
highest-priority asserted button only: the if-else chain reduces to the
priorityReq selection gated by queue fullness and the debounce test. -/
theorem processController_state (s : SchedState) (stick : Controller) (r now : Nat) :
    (processController s stick r now).1 =
      (match priorityReq stick with
       | none => s
       | some a =>
         if r ≠ 2 ∧ (s.current ≠ a ∨ checkDebounce now s.lastActionStart ACTION_DEBOUNCE)
         then { s with next := a } else s) := by
  by_cases hx : stick.x = true <;> by_cases hsq : stick.sq = true <;>
    by_cases hr1 : stick.r1 = true <;> by_cases hl1 : stick.l1 = true <;>
    simp only [processController, priorityReq, hx, hsq, hr1, hl1, if_true, if_false,
      Bool.false_eq_true] <;>
    split_ifs <;> simp_all

/-! Claim C1: cooldown-expiry promotion. -/

/-- C1 counterexample: with currentAction = DashF, lastActionStart = 0 and
now = 300, the elapsed time equals the cooldown (at least it, as the claim
requires), yet processActionQueue changes nothing: the promotion needs the
elapsed time to strictly exceed the cooldown. -/
theorem claim_C1_counterexample :
    getCooldown Action.DashF ≤ elapsedMs 300 0 ∧
    (processActionQueue ⟨Action.DashF, Action.SpinR, 0⟩ 300).1 =
      ⟨Action.DashF, Action.SpinR, 0⟩ ∧
    (processActionQueue ⟨Action.DashF, Action.SpinR, 0⟩ 300).1.current ≠ Action.SpinR := by
  refine ⟨by decide, by decide, by decide⟩

/-- C1 (amended): when an action is running and the elapsed time since
lastActionStart STRICTLY exceeds its cooldown, the tick issues a
zero-both-wheels command when the action was a spin, promotes nextAction
into currentAction, clears nextAction, and sets lastActionStart to now
exactly when the promoted action is not Neutral. -/
theorem claim_C1 (s : SchedState) (now : Nat)
    (hc : s.current ≠ Action.Neutral)
    (hle : s.lastActionStart ≤ now) (hlt : now < UL_MOD)
    (hcd : getCooldown s.current < now - s.lastActionStart) :
    ((s.current = Action.SpinR ∨ s.current = Action.SpinL) →
      (processActionQueue s now).2 = [setSpeed 0 0]) ∧
    (processActionQueue s now).1.current = s.next ∧
    (processActionQueue s now).1.next = Action.Neutral ∧
    (processActionQueue s now).1.lastActionStart =
      (if s.next ≠ Action.Neutral then now else s.lastActionStart) := by
  have hcool : checkCooldown s.current now s.lastActionStart = true := by
    unfold checkCooldown
    rw [checkDebounce_eq now s.lastActionStart (getCooldown s.current) hle hlt]
    exact decide_eq_true hcd
  unfold processActionQueue
  rw [if_pos hc, if_pos hcool]
  refine ⟨?_, rfl, rfl, rfl⟩
  intro hsp
  rw [if_pos hsp]
  rfl

/-- C1 witness: a SpinR past its cooldown with a DashF queued is retired
with a stop command, DashF promoted and the timer restarted. -/
theorem claim_C1_witness :
    Action.SpinR ≠ Action.Neutral ∧ (0 : Nat) ≤ 301 ∧ 301 < UL_MOD ∧
    getCooldown Action.SpinR < 301 - 0 ∧
    (processActionQueue ⟨Action.SpinR, Action.DashF, 0⟩ 301).2 = [setSpeed 0 0] ∧
    (processActionQueue ⟨Action.SpinR, Action.DashF, 0⟩ 301).1.current = Action.DashF :=
  have h := claim_C1 ⟨Action.SpinR, Action.DashF, 0⟩ 301
    (by decide) (by decide) (by decide) (by decide)
  ⟨by decide, by decide, by decide, by decide, h.1 (Or.inl rfl), h.2.1⟩

/-! Claim C2: priority and debounce of queue admission. -/

/-- C2: when the queue is not full, only the highest-priority asserted
button (x over sq over r1 over l1) is considered — the resulting scheduler
state depends on the buttons only through that selection — and the
selected action is written into nextAction precisely when it differs from
currentAction or it equals currentAction and more than the 200ms debounce
window has elapsed since lastActionStart; currentAction and
lastActionStart are never written. -/
theorem claim_C2 (s : SchedState) (stick : Controller) (r now : Nat) (a : Action)
    (hr : r ≠ 2) (hreq : priorityReq stick = some a)
    (hle : s.lastActionStart ≤ now) (hlt : now < UL_MOD) :
    (∀ stick2 : Controller, priorityReq stick2 = priorityReq stick →
      (processController s stick2 r now).1 = (processController s stick r now).1) ∧
    (processController s stick r now).1.next =
      (if a ≠ s.current ∨ (a = s.current ∧ ACTION_DEBOUNCE < now - s.lastActionStart)
       then a else s.next) ∧
    (processController s stick r now).1.current = s.current ∧
    (processController s stick r now).1.lastActionStart = s.lastActionStart := by
  have hdeb := checkDebounce_eq now s.lastActionStart ACTION_DEBOUNCE hle hlt
  have hstate : (processController s stick r now).1 =
      (if r ≠ 2 ∧ (s.current ≠ a ∨ checkDebounce now s.lastActionStart ACTION_DEBOUNCE)
       then { s with next := a } else s) := by
    rw [processController_state, hreq]
  have hcnd : (r ≠ 2 ∧ (s.current ≠ a ∨
        checkDebounce now s.lastActionStart ACTION_DEBOUNCE = true)) ↔
      (a ≠ s.current ∨ (a = s.current ∧ ACTION_DEBOUNCE < now - s.lastActionStart)) := by
    rw [hdeb]
    simp only [decide_eq_true_eq]
    constructor
    · rintro ⟨-, h | h⟩
      · exact Or.inl (Ne.symm h)
      · by_cases hca : a = s.current
        · exact Or.inr ⟨hca, h⟩
        · exact Or.inl hca
    · rintro (h | ⟨-, h2⟩)
      · exact ⟨hr, Or.inl (Ne.symm h)⟩
      · exact ⟨hr, Or.inr h2⟩
  refine ⟨?_, ?_, ?_, ?_⟩
  · intro stick2 h2
    rw [processController_state, processController_state, h2]
  · rw [hstate]
    by_cases hcond : a ≠ s.current ∨ (a = s.current ∧ ACTION_DEBOUNCE < now - s.lastActionStart)
    · rw [if_pos (hcnd.mpr hcond), if_pos hcond]
    · rw [if_neg (fun hh => hcond (hcnd.mp hh)), if_neg hcond]
  · rw [hstate]
    split_ifs <;> rfl
  · rw [hstate]
    split_ifs <;> rfl

/-- C2 witness: x and sq both pressed with DashF already running inside
the debounce window: sq is ignored, the DashF request is rejected and
nextAction stays Neutral. -/
theorem claim_C2_witness :
    (1 : Nat) ≠ 2 ∧
    priorityReq ⟨0, 0, true, true, false, false⟩ = some Action.DashF ∧
    (0 : Nat) ≤ 50 ∧ 50 < UL_MOD ∧
    (processController ⟨Action.DashF, Action.Neutral, 0⟩
        ⟨0, 0, true, true, false, false⟩ 1 50).1.next = Action.Neutral :=
  have h := claim_C2 ⟨Action.DashF, Action.Neutral, 0⟩
    ⟨0, 0, true, true, false, false⟩ 1 50 Action.DashF
    (by decide) (by decide) (by decide) (by decide)
  ⟨by decide, by decide, by decide, by decide, by rw [h.2.1]; decide⟩

/-! Claim C8: queue-full no-op and the status encoding. -/

/-- C8: after processActionQueue, if an action is running and another is
queued the returned status is 2 and a further enqueue attempt in the same
tick leaves the scheduler globals unchanged; in general the status is 0
iff idle, 1 iff running with an empty queue, 2 iff running with a full
queue. -/
theorem claim_C8 (s : SchedState) (now : Nat) :
    ((processActionQueue s now).1.current ≠ Action.Neutral →
      (processActionQueue s now).1.next ≠ Action.Neutral →
      queueStatus (processActionQueue s now).1 = 2 ∧
      ∀ stick : Controller,
        (processController (processActionQueue s now).1 stick
          (queueStatus (processActionQueue s now).1) now).1
          = (processActionQueue s now).1) ∧
    (queueStatus (processActionQueue s now).1 = 0 ↔
      (processActionQueue s now).1.current = Action.Neutral) ∧
    (queueStatus (processActionQueue s now).1 = 1 ↔
      ((processActionQueue s now).1.current ≠ Action.Neutral ∧
        (processActionQueue s now).1.next = Action.Neutral)) ∧
    (queueStatus (processActionQueue s now).1 = 2 ↔
      ((processActionQueue s now).1.current ≠ Action.Neutral ∧
        (processActionQueue s now).1.next ≠ Action.Neutral)) := by
  have hinv := processActionQueue_idle_inv s now
  constructor
  · intro hc hn
    have h2 : queueStatus (processActionQueue s now).1 = 2 := by
      simp [queueStatus, hc, hn]
    exact ⟨h2, fun stick => by rw [h2, processController_full]⟩
  · by_cases hc : (processActionQueue s now).1.current = Action.Neutral
    · have hn := hinv hc
      simp [queueStatus, hc, hn]
    · by_cases hn : (processActionQueue s now).1.next = Action.Neutral <;>
        simp [queueStatus, hc, hn]

/-- C8 witness: DashF running with SpinR queued, not yet expired: status 2
and an enqueue attempt (x pressed) changes nothing. -/
theorem claim_C8_witness :
    (processActionQueue ⟨Action.DashF, Action.SpinR, 0⟩ 50).1.current ≠ Action.Neutral ∧
    (processActionQueue ⟨Action.DashF, Action.SpinR, 0⟩ 50).1.next ≠ Action.Neutral ∧
    queueStatus (processActionQueue ⟨Action.DashF, Action.SpinR, 0⟩ 50).1 = 2 ∧
    (processController (processActionQueue ⟨Action.DashF, Action.SpinR, 0⟩ 50).1
        ⟨0, 0, true, false, false, false⟩
        (queueStatus (processActionQueue ⟨Action.DashF, Action.SpinR, 0⟩ 50).1) 50).1
      = (processActionQueue ⟨Action.DashF, Action.SpinR, 0⟩ 50).1 :=
  have h := (claim_C8 ⟨Action.DashF, Action.SpinR, 0⟩ 50).1 (by decide) (by decide)
  ⟨by decide, by decide, h.1, h.2 ⟨0, 0, true, false, false, false⟩⟩

/-! Claim C10: the idle-implies-empty-queue invariant of the return value. -/

/-- C10: immediately after every processActionQueue call, an idle
currentAction implies an empty nextAction — a pending action never sits in
the queue while the scheduler is idle — so the returned value equals 1
exactly for a running action with an empty queue, never for a
queued-but-idle state. -/
theorem claim_C10 (s : SchedState) (now : Nat) :
    ((processActionQueue s now).1.current = Action.Neutral →
      (processActionQueue s now).1.next = Action.Neutral) ∧
    (queueStatus (processActionQueue s now).1 = 1 ↔
      ((processActionQueue s now).1.current ≠ Action.Neutral ∧
        (processActionQueue s now).1.next = Action.Neutral)) := by
  have hinv := processActionQueue_idle_inv s now
  refine ⟨hinv, ?_⟩
  by_cases hc : (processActionQueue s now).1.current = Action.Neutral
  · have hn := hinv hc
    simp [queueStatus, hc, hn]
  · by_cases hn : (processActionQueue s now).1.next = Action.Neutral <;>
      simp [queueStatus, hc, hn]

/-- C10 witness: a SpinR expiring with nothing queued promotes to Neutral
and the queue is indeed empty afterwards. -/
theorem claim_C10_witness :
    (processActionQueue ⟨Action.SpinR, Action.Neutral, 0⟩ 301).1.current = Action.Neutral ∧
    (processActionQueue ⟨Action.SpinR, Action.Neutral, 0⟩ 301).1.next = Action.Neutral :=
  ⟨by decide, (claim_C10 ⟨Action.SpinR, Action.Neutral, 0⟩ 301).1 (by decide)⟩

/-! Claim C4: the two spin phases. -/

/-- C4: for either spin and any elapsed time t since lastActionStart,
within the initial 100ms active phase the executed wheel command is
nonzero and opposite-signed with the mixer's lead/trail split (right spin:
left wheel positive times lead, right wheel negative times trail; mirrored
for the left spin); past the active phase but before the full spin
cooldown the command is (0, 0). -/
theorem claim_C4 (now last : Nat) (hle : last ≤ now) (hlt : now < UL_MOD) :
    (now - last ≤ SPIN_ACTIVE →
      (spinR now last).lVal = SPIN_SPEED * ROT_LEAD ∧
      (spinR now last).rVal = (-SPIN_SPEED) * ROT_TRAIL ∧
      0 < (spinR now last).lVal ∧ (spinR now last).rVal < 0 ∧
      (spinL now last).lVal = (-SPIN_SPEED) * ROT_TRAIL ∧
      (spinL now last).rVal = SPIN_SPEED * ROT_LEAD ∧
      (spinL now last).lVal < 0 ∧ 0 < (spinL now last).rVal) ∧
    (SPIN_ACTIVE < now - last → now - last < SPIN_DURATION →
      spinR now last = setSpeed 0 0 ∧ spinL now last = setSpeed 0 0) := by
  have hdeb := checkDebounce_eq now last SPIN_ACTIVE hle hlt
  constructor
  · intro ht
    have hfalse : checkDebounce now last SPIN_ACTIVE = false := by
      rw [hdeb]
      exact decide_eq_false (by omega)
    unfold spinR spinL
    rw [hfalse]
    norm_num [setSpeed, SPIN_SPEED, ROT_LEAD, ROT_TRAIL]
  · intro h1 h2
    have htrue : checkDebounce now last SPIN_ACTIVE = true := by
      rw [hdeb]
      exact decide_eq_true h1
    unfold spinR spinL
    rw [htrue]
    exact ⟨rfl, rfl⟩

/-- C4 witness: at t = 50 the right spin drives the wheels (1, -1); at
t = 150, inside the cooldown, both wheels are zeroed. -/
theorem claim_C4_witness :
    ((0 : Nat) ≤ 50 ∧ 50 < UL_MOD ∧ 50 - 0 ≤ SPIN_ACTIVE ∧
      (spinR 50 0).lVal = SPIN_SPEED * ROT_LEAD ∧ (spinR 50 0).rVal < 0) ∧
    (SPIN_ACTIVE < 150 - 0 ∧ 150 - 0 < SPIN_DURATION ∧ spinR 150 0 = setSpeed 0 0) :=
  have ha := (claim_C4 50 0 (by decide) (by decide)).1 (by decide)
  have hb := (claim_C4 150 0 (by decide) (by decide)).2 (by decide) (by decide)
  ⟨⟨by decide, by decide, by decide, ha.1, ha.2.2.2.1⟩, ⟨by decide, by decide, hb.1⟩⟩

/-! Claim C9: disconnected ticks stop the motors and rate-limit reconnects. -/

/-- C9: every disconnected tick emits exactly the stop command (0, 0); a
reconnect attempt fires precisely when more than STICK_RECONNECT_DELAY
milliseconds have elapsed since stickReconnectTimer, which is then set to
now; an attempt at time now suppresses any further attempt for the whole
following 3000ms window; and the scheduler globals are untouched by
disconnected ticks just as connected ticks never touch the reconnect
timer. -/
theorem claim_C9 (s : SysState) (stick : Controller) (now : Nat)
    (hle : s.stickReconnectTimer ≤ now) (hlt : now < UL_MOD) :
    (loopTick s false stick now).cmds = [setSpeed 0 0] ∧
    ((loopTick s false stick now).reconnectAttempt = true ↔
      STICK_RECONNECT_DELAY < now - s.stickReconnectTimer) ∧
    ((loopTick s false stick now).reconnectAttempt = true →
      (loopTick s false stick now).state.stickReconnectTimer = now) ∧
    ((loopTick s false stick now).reconnectAttempt = false →
      (loopTick s false stick now).state.stickReconnectTimer = s.stickReconnectTimer) ∧
    (loopTick s false stick now).state.sched = s.sched ∧
    (∀ (stick2 : Controller) (now2 : Nat),
      (loopTick s false stick now).reconnectAttempt = true →
      now ≤ now2 → now2 ≤ now + STICK_RECONNECT_DELAY → now2 < UL_MOD →
      (loopTick (loopTick s false stick now).state false stick2 now2).reconnectAttempt
        = false) ∧
    (loopTick s true stick now).state.stickReconnectTimer = s.stickReconnectTimer := by
  have hdisc : loopTick s false stick now =
      (if elapsedMs now s.stickReconnectTimer > STICK_RECONNECT_DELAY then
        ⟨⟨s.sched, now⟩, [reset], true⟩
      else ⟨⟨s.sched, s.stickReconnectTimer⟩, [reset], false⟩) := rfl
  have hel : elapsedMs now s.stickReconnectTimer = now - s.stickReconnectTimer :=
    elapsedMs_eq _ _ hle hlt
  by_cases hatt : STICK_RECONNECT_DELAY < now - s.stickReconnectTimer
  · have hif : elapsedMs now s.stickReconnectTimer > STICK_RECONNECT_DELAY := by
      rw [hel]
      exact hatt
    rw [hdisc, if_pos hif]
    refine ⟨rfl, by simp [hatt], fun _ => rfl, by simp, rfl, ?_, rfl⟩
    intro stick2 now2 _ hn1 hn2 hn3
    have hdisc2 : loopTick (⟨s.sched, now⟩ : SysState) false stick2 now2 =
        (if elapsedMs now2 now > STICK_RECONNECT_DELAY then
          ⟨⟨s.sched, now2⟩, [reset], true⟩
        else ⟨⟨s.sched, now⟩, [reset], false⟩) := rfl
    have hel2 : elapsedMs now2 now = now2 - now := elapsedMs_eq _ _ hn1 hn3
    rw [hdisc2, if_neg (by rw [hel2]; omega)]
  · have hif : ¬ elapsedMs now s.stickReconnectTimer > STICK_RECONNECT_DELAY := by
      rw [hel]
      exact hatt
    rw [hdisc, if_neg hif]
    exact ⟨rfl, by simp [hatt], by simp, fun _ => rfl, rfl, by simp, rfl⟩

/-- C9 witness: a disconnected tick at t = 4000 with the timer at 0 stops
the motors and fires a reconnect attempt. -/
theorem claim_C9_witness :
    (0 : Nat) ≤ 4000 ∧ 4000 < UL_MOD ∧
    (loopTick ⟨⟨Action.Neutral, Action.Neutral, 0⟩, 0⟩ false
      ⟨0, 0, false, false, false, false⟩ 4000).cmds = [setSpeed 0 0] ∧
    (loopTick ⟨⟨Action.Neutral, Action.Neutral, 0⟩, 0⟩ false
      ⟨0, 0, false, false, false, false⟩ 4000).reconnectAttempt = true :=
  have h := claim_C9 ⟨⟨Action.Neutral, Action.Neutral, 0⟩, 0⟩
    ⟨0, 0, false, false, false, false⟩ 4000 (by decide) (by decide)
  ⟨by decide, by decide, h.1, (h.2.1).mpr (by decide)⟩

end Sumo
